import Mathlib

/-!
Verification of the Citation-Grounded RAG engine of the ILLAN legal-case
backend, against its natural-language specification.

Each definition is a shallow embedding of a concrete Python function of the
repository:

* `chunk_document`       — `ProcessingPipeline._chunk_document`
                           (`backend/services/processing_pipeline.py`)
* `embed_document`, `embed_chunks_with_context`
                         — `EmbeddingService` (`backend/services/embedding_service.py`)
* `add_document_chunks`  — `VectorStore.add_document_chunks`
                           (`backend/services/vector_store.py`)
* `rerank`, `fallback_rerank`
                         — `RetrievalService` (`backend/services/retrieval_service.py`)
* `generate_with_citations`
                         — `LLMService.generate_with_citations`
                           (`backend/services/llm_service.py`)
* `should_revise`, `revision_node`, `runLoop`, `run`
                         — `RAGPipeline` (`backend/services/rag_pipeline.py`)

External providers (embedding, rerank and completion services) are modelled
as explicit oracle arguments: a call that may fail returns an `Option`,
and a completion call is an arbitrary function of the prompt and the
sampling parameters, exactly the data the Python code passes to it.
Python strings are modelled as `List Char` where character-level slicing
matters and as `String` elsewhere; Python floats are modelled as `ℚ`.
-/

/-! ## Python string primitives -/

/-- Resolution of one Python slice index: a negative index counts from the
end (clamped below at 0), a non-negative one is clamped above at the
length. -/
def pyResolve (n : Nat) (i : Int) : Nat :=
  if i < 0 then ((n : Int) + i).toNat else min i.toNat n

/-- Python slice `l[a:b]` on a list of characters, with full Python index
semantics (negative indices, clamping). -/
def pySlice (l : List Char) (a b : Int) : List Char :=
  (l.drop (pyResolve l.length a)).take (pyResolve l.length b - pyResolve l.length a)

/-- Python substring test `needle in hay`: does `needle` occur contiguously
inside `hay`? -/
def strHas (needle : List Char) : List Char → Bool
  | [] => needle.isEmpty
  | c :: rest => needle.isPrefixOf (c :: rest) || strHas needle rest

/-- Python `str.find(sub)`: index of the first occurrence of `needle` in
`hay`, as an `Option` (`none` models the `-1` sentinel). -/
def strFind (needle : List Char) : List Char → Option Nat
  | [] => if needle.isEmpty then some 0 else none
  | c :: rest =>
    if needle.isPrefixOf (c :: rest) then some 0
    else (strFind needle rest).map (· + 1)

/-- Python `str.upper()` (character-wise upper-casing). -/
def pyUpper (s : String) : String :=
  String.mk (s.toList.map Char.toUpper)

/-- Python `str.strip()`: remove leading and trailing whitespace. -/
def pyStrip (s : String) : String :=
  String.mk (((s.toList.dropWhile Char.isWhitespace).reverse.dropWhile
    Char.isWhitespace).reverse)

/-! ## Chunker — `ProcessingPipeline._chunk_document`

```python
chunks = []
if not text:
    return []
start = 0
while start < len(text):
    end = start + chunk_size
    chunk = text[start:end]
    chunks.append(chunk)
    start = end - overlap  # Overlap for context
return chunks
```

The `while` loop is embedded with explicit fuel: `none` means the fuel ran
out, so the loop body would still be running after that many iterations.
The loop variable `start` is a Python `int`, hence `Int` (for
`overlap > chunk_size` it becomes negative). -/

/-- One fuel-indexed execution of the chunking `while` loop, starting at
position `start`. `none` = the loop did not finish within `fuel`
iterations. -/
def chunkLoop (text : List Char) (chunk_size overlap : Nat) :
    Nat → Int → Option (List (List Char))
  | 0, _ => none
  | fuel + 1, start =>
    if start < (text.length : Int) then
      match chunkLoop text chunk_size overlap fuel (start + chunk_size - overlap) with
      | none => none
      | some rest => some (pySlice text start (start + chunk_size) :: rest)
    else
      some []

/-- `ProcessingPipeline._chunk_document(text, chunk_size, overlap)`.
Fuel `text.length + 1` is an upper bound on the number of loop iterations
whenever the loop terminates at all (each iteration advances `start` by
`chunk_size - overlap ≥ 1` when `overlap < chunk_size`); `none` therefore
models a diverging call. -/
def chunk_document (text : List Char) (chunk_size overlap : Nat) :
    Option (List (List Char)) :=
  if text.isEmpty then some []
  else chunkLoop text chunk_size overlap (text.length + 1) 0

/-- Unfolding equation for `chunkLoop` at positive fuel. -/
theorem chunkLoop_succ (text : List Char) (chunk_size overlap : Nat)
    (fuel : Nat) (start : Int) :
    chunkLoop text chunk_size overlap (fuel + 1) start =
      if start < (text.length : Int) then
        match chunkLoop text chunk_size overlap fuel (start + chunk_size - overlap) with
        | none => none
        | some rest => some (pySlice text start (start + chunk_size) :: rest)
      else
        some [] := rfl

/-- Stop case of the chunking loop: once `start` has reached the end of the
text the loop exits with no further chunk. -/
theorem chunkLoop_stop (text : List Char) (chunk_size overlap : Nat)
    (fuel : Nat) (start : Int) (h : ¬ start < (text.length : Int)) :
    chunkLoop text chunk_size overlap (fuel + 1) start = some [] := by
  rw [chunkLoop_succ, if_neg h]

/-- Step case of the chunking loop: one iteration appends the slice
`text[start : start + chunk_size]` and continues at
`start + chunk_size - overlap`. -/
theorem chunkLoop_step (text : List Char) (chunk_size overlap : Nat)
    (fuel : Nat) (start : Int) (rest : List (List Char))
    (h : start < (text.length : Int))
    (h2 : chunkLoop text chunk_size overlap fuel (start + chunk_size - overlap) = some rest) :
    chunkLoop text chunk_size overlap (fuel + 1) start =
      some (pySlice text start (start + chunk_size) :: rest) := by
  rw [chunkLoop_succ, if_pos h, h2]

/-- When `overlap < chunk_size`, enough fuel makes the chunking loop
finish: `fuel` more iterations suffice whenever
`text.length ≤ start + (chunk_size - overlap) · fuel`. -/
theorem chunkLoop_isSome (text : List Char) (chunk_size overlap : Nat) :
    ∀ (fuel : Nat) (start : Int),
      (text.length : Int) ≤ start + ((chunk_size : Int) - overlap) * fuel →
      (chunkLoop text chunk_size overlap (fuel + 1) start).isSome := by
  intro fuel
  induction fuel with
  | zero =>
    intro start h
    rw [chunkLoop_stop]
    · rfl
    · push_cast at h ⊢
      omega
  | succ n ih =>
    intro start h
    by_cases hs : start < (text.length : Int)
    · have key : start + ((chunk_size : Int) - overlap) * ((n : Int) + 1) =
          (start + chunk_size - overlap) + ((chunk_size : Int) - overlap) * n := by ring
      have h' : (text.length : Int) ≤
          (start + chunk_size - overlap) + ((chunk_size : Int) - overlap) * n := by
        push_cast at h
        linarith [h, key.symm]
      obtain ⟨r, hr⟩ := Option.isSome_iff_exists.mp (ih _ h')
      rw [chunkLoop_step _ _ _ _ _ _ hs hr]
      rfl
    · rw [chunkLoop_stop _ _ _ _ _ hs]
      rfl

/-- When `chunk_size ≤ overlap`, the loop position never increases, so on a
non-empty text the loop condition stays true forever: no amount of fuel
finishes the loop. -/
theorem chunkLoop_none (text : List Char) (chunk_size overlap : Nat)
    (hle : chunk_size ≤ overlap) (hpos : 0 < text.length) :
    ∀ (fuel : Nat) (start : Int), start ≤ 0 →
      chunkLoop text chunk_size overlap fuel start = none := by
  intro fuel
  induction fuel with
  | zero => intro start _; rfl
  | succ n ih =>
    intro start hstart
    have hs : start < (text.length : Int) := by
      have : (0 : Int) < text.length := by exact_mod_cast hpos
      omega
    rw [chunkLoop_succ, if_pos hs, ih (start + chunk_size - overlap) (by omega)]

/-- C10. The chunking loop of `_chunk_document` terminates on every
non-empty text exactly when `overlap < chunk_size`: with
`overlap < chunk_size` every iteration advances `start` by
`chunk_size - overlap ≥ 1` and `text.length + 1` iterations always
suffice, while with `chunk_size ≤ overlap` the loop position never
passes the end of the text and the loop runs forever (no fuel value
completes it) — a precondition the spec does not state. -/
theorem c10_chunk_terminates_iff (text : List Char) (chunk_size overlap : Nat)
    (hpos : 0 < text.length) :
    (overlap < chunk_size → (chunk_document text chunk_size overlap).isSome) ∧
    (chunk_size ≤ overlap →
      (∀ fuel : Nat, chunkLoop text chunk_size overlap fuel 0 = none) ∧
      chunk_document text chunk_size overlap = none) := by
  have hne : text.isEmpty = false := by
    cases text with
    | nil => simp at hpos
    | cons a l => rfl
  constructor
  · intro hlt
    unfold chunk_document
    rw [hne]
    simp only [Bool.false_eq_true, if_false]
    apply chunkLoop_isSome
    have h1 : (1 : Int) ≤ (chunk_size : Int) - overlap := by
      omega
    calc (text.length : Int) = 0 + 1 * (text.length : Int) := by ring
    _ ≤ 0 + ((chunk_size : Int) - overlap) * (text.length : Int) := by
        have : (0 : Int) ≤ (text.length : Int) := by positivity
        nlinarith
  · intro hle
    refine ⟨fun fuel => chunkLoop_none text chunk_size overlap hle hpos fuel 0 le_rfl, ?_⟩
    unfold chunk_document
    rw [hne]
    simp only [Bool.false_eq_true, if_false]
    exact chunkLoop_none text chunk_size overlap hle hpos _ 0 le_rfl

/-- Witness for C10 at concrete inputs: `"abc"` with `chunk_size = 2,
overlap = 1` terminates, and with `chunk_size = 1, overlap = 1` the loop
never finishes (shown here for fuel 5). -/
theorem c10_chunk_terminates_iff_witness :
    (chunk_document "abc".toList 2 1).isSome ∧
    chunkLoop "abc".toList 1 1 5 0 = none ∧
    chunk_document "abc".toList 1 1 = none := by
  refine ⟨(c10_chunk_terminates_iff "abc".toList 2 1 (by decide)).1 (by decide), ?_, ?_⟩
  · exact ((c10_chunk_terminates_iff "abc".toList 1 1 (by decide)).2 (by decide)).1 5
  · exact ((c10_chunk_terminates_iff "abc".toList 1 1 (by decide)).2 (by decide)).2

/-- Helper: the slice `l[0 : c]` is the whole list when `c` bounds its
length. -/
theorem pySlice_zero_of_le (l : List Char) (c : Nat) (h : l.length ≤ c) :
    pySlice l 0 ((0 : Int) + c) = l := by
  unfold pySlice pyResolve
  rw [if_neg (by norm_num), if_neg (by omega)]
  simp [Int.toNat_natCast, Nat.zero_min, min_eq_right h, List.take_length]

/-- Helper: the slice `l[a : b]` at non-negative positions is
`drop`-then-`take`. -/
theorem pySlice_natCast (l : List Char) (a b : Nat) :
    pySlice l (a : Int) (b : Int) =
      (l.drop (min a l.length)).take (min b l.length - min a l.length) := by
  unfold pySlice pyResolve
  rw [if_neg (by omega), if_neg (by omega)]
  simp [Int.toNat_natCast]

/-- Helper: `_chunk_document` on any 900-character text with the default
parameters produces the whole text followed by a spurious second chunk of
its last 100 characters. -/
theorem chunk_document_900 (t : List Char) (h : t.length = 900) :
    chunk_document t 1000 200 = some [t, t.drop 800] := by
  have hne : t.isEmpty = false := by
    cases t with
    | nil => simp at h
    | cons a l => rfl
  have h2 : chunkLoop t 1000 200 899 ((1600 : Nat) : Int) = some [] := by
    apply chunkLoop_stop
    omega
  have h1 : chunkLoop t 1000 200 900 ((800 : Nat) : Int) = some [t.drop 800] := by
    rw [chunkLoop_step _ _ _ _ _ _ (by omega) (by norm_num; exact h2)]
    rw [show ((800 : Nat) : Int) + (1000 : Nat) = ((1800 : Nat) : Int) by norm_num,
      pySlice_natCast t 800 1800, h]
    norm_num
    omega
  have h0 : chunkLoop t 1000 200 901 0 = some [t, t.drop 800] := by
    rw [chunkLoop_step _ _ _ _ _ _ (by omega) (by norm_num; exact h1)]
    rw [show (0 : Int) + (1000 : Nat) = ((1000 : Nat) : Int) by norm_num,
      show (0 : Int) = ((0 : Nat) : Int) by norm_num,
      pySlice_natCast t 0 1000, h]
    norm_num
    omega
  unfold chunk_document
  rw [hne]
  simp only [Bool.false_eq_true, if_false, h]
  exact h0

/-- Counterexample to C3: a 900-character text with the default parameters
`chunk_size = 1000, overlap = 200` has length ≤ `chunk_size`, yet
`_chunk_document` yields two chunks (of 900 and 100 characters), not one,
because after the first iteration `start = chunk_size - overlap = 800`
is still inside the text. -/
theorem c3_counterexample :
    (chunk_document (List.replicate 900 'a') 1000 200).map
      (fun l => l.map List.length) = some [900, 100] ∧
    [900, 100] ≠ [900] := by
  refine ⟨?_, by decide⟩
  rw [chunk_document_900 (List.replicate 900 'a') (by rw [List.length_replicate])]
  simp only [Option.map_some', List.map_cons, List.map_nil,
    List.length_replicate, List.length_drop]

/-- C3 (amended). For every non-empty text whose length is at most
`chunk_size - overlap`, `_chunk_document` yields exactly one chunk, equal
to the text.  (The spec claims this for every length at most `chunk_size`;
a text with `chunk_size - overlap < len(text) ≤ chunk_size` instead gets a
second, spurious chunk.) -/
theorem c3_single_chunk (text : List Char) (chunk_size overlap : Nat)
    (hpos : 0 < text.length) (hlen : text.length ≤ chunk_size - overlap) :
    chunk_document text chunk_size overlap = some [text] := by
  have hne : text.isEmpty = false := by
    cases text with
    | nil => simp at hpos
    | cons a l => rfl
  unfold chunk_document
  rw [hne]
  simp only [Bool.false_eq_true, if_false]
  obtain ⟨n, hn⟩ : ∃ n, text.length = n + 1 := ⟨text.length - 1, by omega⟩
  have hstop : chunkLoop text chunk_size overlap (n + 1)
      ((0 : Int) + chunk_size - overlap) = some [] := by
    apply chunkLoop_stop
    omega
  rw [hn, chunkLoop_step _ _ _ _ _ _ (by exact_mod_cast hpos) hstop,
    pySlice_zero_of_le text chunk_size (by omega)]

/-- Witness for C3 (amended) at the concrete text `"ab"` with
`chunk_size = 5, overlap = 2`. -/
theorem c3_single_chunk_witness :
    chunk_document "ab".toList 5 2 = some ["ab".toList] :=
  c3_single_chunk "ab".toList 5 2 (by decide) (by decide)

/-- Helper: `_chunk_document` on any 2500-character text with
`chunk_size = 1000, overlap = 200` produces exactly the four slices
`text[0:1000]`, `text[800:1800]`, `text[1600:2500]`, `text[2400:2500]`. -/
theorem chunk_document_2500 (t : List Char) (h : t.length = 2500) :
    chunk_document t 1000 200 =
      some [t.take 1000, (t.drop 800).take 1000,
        (t.drop 1600).take 900, (t.drop 2400).take 100] := by
  have hne : t.isEmpty = false := by
    cases t with
    | nil => simp at h
    | cons a l => rfl
  have h4 : chunkLoop t 1000 200 2497 ((3200 : Nat) : Int) = some [] := by
    apply chunkLoop_stop
    omega
  have h3 : chunkLoop t 1000 200 2498 ((2400 : Nat) : Int) =
      some [(t.drop 2400).take 100] := by
    rw [chunkLoop_step _ _ _ _ _ _ (by omega) (by norm_num; exact h4)]
    rw [show ((2400 : Nat) : Int) + (1000 : Nat) = ((3400 : Nat) : Int) by norm_num,
      pySlice_natCast t 2400 3400, h]
    norm_num
  have h2 : chunkLoop t 1000 200 2499 ((1600 : Nat) : Int) =
      some [(t.drop 1600).take 900, (t.drop 2400).take 100] := by
    rw [chunkLoop_step _ _ _ _ _ _ (by omega) (by norm_num; exact h3)]
    rw [show ((1600 : Nat) : Int) + (1000 : Nat) = ((2600 : Nat) : Int) by norm_num,
      pySlice_natCast t 1600 2600, h]
    norm_num
  have h1 : chunkLoop t 1000 200 2500 ((800 : Nat) : Int) =
      some [(t.drop 800).take 1000, (t.drop 1600).take 900, (t.drop 2400).take 100] := by
    rw [chunkLoop_step _ _ _ _ _ _ (by omega) (by norm_num; exact h2)]
    rw [show ((800 : Nat) : Int) + (1000 : Nat) = ((1800 : Nat) : Int) by norm_num,
      pySlice_natCast t 800 1800, h]
    norm_num
  have h0 : chunkLoop t 1000 200 2501 0 =
      some [t.take 1000, (t.drop 800).take 1000,
        (t.drop 1600).take 900, (t.drop 2400).take 100] := by
    rw [chunkLoop_step _ _ _ _ _ _ (by omega) (by norm_num; exact h1)]
    rw [show (0 : Int) + (1000 : Nat) = ((1000 : Nat) : Int) by norm_num,
      show (0 : Int) = ((0 : Nat) : Int) by norm_num,
      pySlice_natCast t 0 1000, h]
    norm_num
  unfold chunk_document
  rw [hne]
  simp only [Bool.false_eq_true, if_false, h]
  exact h0

/-- Counterexample to C4: on a concrete text of exactly 2500 characters
with `chunk_size = 1000, overlap = 200`, `_chunk_document` yields 4 chunks
of lengths 1000, 1000, 900, 100 — not the 3 chunks of lengths 1000, 1000,
700 the spec expects.  (The third slice `text[1600:2600]` is clipped to 900
characters, and since the loop then sets `start = 2600 - 200 = 2400 < 2500`
a fourth 100-character chunk is emitted.) -/
theorem c4_counterexample :
    (chunk_document (List.replicate 2500 'a') 1000 200).map
      (fun l => l.map List.length) = some [1000, 1000, 900, 100] ∧
    [1000, 1000, 900, 100] ≠ [1000, 1000, 700] := by
  refine ⟨?_, by decide⟩
  rw [chunk_document_2500 (List.replicate 2500 'a') (by rw [List.length_replicate])]
  simp only [Option.map_some', List.map_cons, List.map_nil, List.length_take,
    List.length_replicate, List.length_drop]
  norm_num [Nat.min_def]

/-- C4 (amended). Chunking any text of exactly 2500 characters with
`chunk_size = 1000, overlap = 200` yields exactly 4 chunks, of lengths
1000, 1000, 900 and 100, taken at character boundaries 0–1000, 800–1800,
1600–2500 and 2400–2500 of the input. -/
theorem c4_chunks_2500 (t : List Char) (h : t.length = 2500) :
    chunk_document t 1000 200 =
      some [t.take 1000, (t.drop 800).take 1000,
        (t.drop 1600).take 900, (t.drop 2400).take 100] ∧
    (chunk_document t 1000 200).map (fun l => l.map List.length) =
      some [1000, 1000, 900, 100] := by
  refine ⟨chunk_document_2500 t h, ?_⟩
  rw [chunk_document_2500 t h]
  simp only [Option.map_some', List.map_cons, List.map_nil, List.length_take,
    List.length_drop, h]
  norm_num [Nat.min_def]

/-- Witness for C4 (amended) at the concrete 2500-character text
`replicate 2500 'a'`. -/
theorem c4_chunks_2500_witness :
    chunk_document (List.replicate 2500 'a') 1000 200 =
      some [(List.replicate 2500 'a').take 1000,
        ((List.replicate 2500 'a').drop 800).take 1000,
        ((List.replicate 2500 'a').drop 1600).take 900,
        ((List.replicate 2500 'a').drop 2400).take 100] ∧
    (chunk_document (List.replicate 2500 'a') 1000 200).map
      (fun l => l.map List.length) = some [1000, 1000, 900, 100] :=
  c4_chunks_2500 (List.replicate 2500 'a') (by rw [List.length_replicate])

/-! ## Shared data model

Python dicts with string keys and (stringified) values are modelled as
association lists; `dict.get(k, default)` is `dictGet`. -/

/-- Metadata dictionary (string keys, values modelled after the `str(...)`
conversion the vector store applies). -/
abbrev Metadata := List (String × String)

/-- Python `d.get(k, default)` on an association list. -/
def dictGet (d : Metadata) (k dflt : String) : String :=
  match d.find? (fun p => p.1 == k) with
  | some p => p.2
  | none => dflt

/-! ## Contextual Embedder — `EmbeddingService`

```python
def embed_document(self, text):
    try:
        truncated_text = text[:self.context_window * 4]   # 32768 * 4
        output = embed.text(texts=[truncated_text], ..., task_type='search_document')
        return np.array(output['embeddings'][0])
    except Exception:
        return np.zeros(768)
```

The embedding provider (`nomic.embed.text`) is an oracle
`Provider : List Char → EmbedTask → Option Vec`; `none` models a raised
provider exception.  Vectors are rational-valued lists; numpy vector
arithmetic on equal-dimension arrays is elementwise. -/

/-- Embedding vector (floats modelled as rationals). -/
abbrev Vec := List ℚ

/-- Task hint passed to the embedding provider (`task_type=...`). -/
inductive EmbedTask where
  | search_document
  | search_query
deriving DecidableEq

/-- Embedding provider oracle; `none` models a provider exception. -/
abbrev Provider := List Char → EmbedTask → Option Vec

/-- Scalar multiple of a numpy vector. -/
def vscale (a : ℚ) (v : Vec) : Vec := v.map (fun x => a * x)

/-- Elementwise sum of two equal-dimension numpy vectors. -/
def vadd (v w : Vec) : Vec := List.zipWith (fun x y => x + y) v w

/-- `np.zeros(768)`, the fallback vector when every provider call fails. -/
def zeros768 : Vec := List.replicate 768 0

/-- `EmbeddingService.embed_document`: embed the text truncated to
`context_window * 4` characters with task `search_document`; on a provider
error return the zero vector. -/
def embed_document (p : Provider) (text : List Char) : Vec :=
  match p (text.take (32768 * 4)) EmbedTask.search_document with
  | some v => v
  | none => zeros768

/-- Chunk-level embedding: the body of the per-chunk loop of
`EmbeddingService.embed_chunks_with_context` up to (excluding) the blend
with the document embedding.  Locate the chunk in the full document
(`full_document.find(chunk)`); if not found, embed the chunk independently
via `embed_document`; otherwise embed the ±1000-character context window
with task `search_query`, falling back to `embed_document(chunk)` if that
provider call errors. -/
def chunk_context_emb (p : Provider) (full_document chunk : List Char) : Vec :=
  match strFind chunk full_document with
  | none => embed_document p chunk
  | some chunk_start =>
    let context_before := chunk_start - 1000
    let context_after := min full_document.length (chunk_start + chunk.length + 1000)
    let context_window := (full_document.drop context_before).take
      (context_after - context_before)
    match p context_window EmbedTask.search_query with
    | some v => v
    | none => embed_document p chunk

/-- `EmbeddingService.embed_chunks_with_context`: every chunk's stored
vector is `0.7 * chunk_level + 0.3 * document_embedding`, paired with its
metadata (`chunk_metadata[i] if i < len(chunk_metadata) else` the empty
dict). -/
def embed_chunks_with_context (p : Provider) (full_document : List Char)
    (chunks : List (List Char)) (chunk_metadata : List Metadata) :
    List (Vec × Metadata) :=
  let document_embedding := embed_document p full_document
  chunks.enum.map (fun ic =>
    (vadd (vscale (7/10) (chunk_context_emb p full_document ic.2))
        (vscale (3/10) document_embedding),
     chunk_metadata.getD ic.1 []))

/-- When the provider fails on every `search_query` call, the chunk-level
embedding degrades to the independent chunk embedding (document task). -/
theorem chunk_context_emb_of_query_none (p : Provider) (full_document chunk : List Char)
    (hq : ∀ t, p t EmbedTask.search_query = none) :
    chunk_context_emb p full_document chunk = embed_document p chunk := by
  unfold chunk_context_emb
  cases strFind chunk full_document with
  | none => rfl
  | some s => simp [hq]

/-- Concrete embedding provider for the C5 scenario: the document-task
calls on `"abcd"` and `"ab"` succeed (with distinct one-dimensional
vectors), every `search_query` call — in particular the context-window
call — raises. -/
def c5Provider : Provider := fun t task =>
  match task with
  | EmbedTask.search_query => none
  | EmbedTask.search_document =>
    if t = "abcd".toList then some [0]
    else if t = "ab".toList then some [1]
    else none

/-- Counterexample to C5: for the document `"abcd"` with single chunk
`"ab"`, the provider errors on the chunk's context-window embedding call,
yet the vector stored for the chunk is `[7/10]` — the blend of the
independent chunk embedding `[1]` with the document embedding `[0]` — and
not the document-level embedding `[0]` alone, as the spec claims. -/
theorem c5_counterexample :
    embed_chunks_with_context c5Provider "abcd".toList ["ab".toList] [[]] =
      [([7/10], [])] ∧
    embed_document c5Provider "abcd".toList = [0] ∧
    ([7/10] : Vec) ≠ [0] := by
  have e1 : embed_document c5Provider "abcd".toList = [0] := rfl
  have e3 : chunk_context_emb c5Provider "abcd".toList "ab".toList = [1] := rfl
  refine ⟨?_, e1, by norm_num⟩
  unfold embed_chunks_with_context
  simp only [List.enum_cons, List.enum_nil, List.map_cons, List.map_nil, e1, e3]
  simp only [List.enumFrom_nil, List.map_nil, vadd, vscale, List.map_cons, List.map_nil,
    List.zipWith_cons_cons, List.zipWith_nil_right, List.zipWith_nil_left]
  norm_num

/-- C5 (amended). If the embedding provider errors on the context-window
(`search_query`) call of every chunk, each chunk still receives a vector —
one vector per chunk, never null — equal to the blend
`0.7 * embed_document(chunk) + 0.3 * embed_document(full_document)`,
i.e. the independent chunk embedding blended with the document embedding,
not the document-level embedding alone; the error is absorbed (the
embedder raises nothing). -/
theorem c5_fallback_blend (p : Provider) (full_document : List Char)
    (chunks : List (List Char)) (chunk_metadata : List Metadata)
    (i : Nat) (hi : i < chunks.length)
    (hq : ∀ t, p t EmbedTask.search_query = none) :
    (embed_chunks_with_context p full_document chunks chunk_metadata).length =
      chunks.length ∧
    (embed_chunks_with_context p full_document chunks chunk_metadata).getD i ([], []) =
      (vadd (vscale (7/10) (embed_document p (chunks.getD i [])))
          (vscale (3/10) (embed_document p full_document)),
       chunk_metadata.getD i []) := by
  constructor
  · simp [embed_chunks_with_context]
  · unfold embed_chunks_with_context
    rw [List.getD_eq_getElem?_getD, List.getElem?_map, List.getElem?_enum,
      List.getElem?_eq_getElem hi]
    simp only [Option.map_some', Option.getD_some]
    rw [chunk_context_emb_of_query_none p full_document _ hq]
    rw [List.getD_eq_getElem?_getD chunks i [], List.getElem?_eq_getElem hi,
      Option.getD_some]

/-- Witness for C5 (amended): in the concrete scenario of `c5Provider`
(every context-window call fails) the single chunk's stored vector is the
blend of its independent embedding with the document embedding. -/
theorem c5_fallback_blend_witness :
    (embed_chunks_with_context c5Provider "abcd".toList ["ab".toList] [[]]).length = 1 ∧
    (embed_chunks_with_context c5Provider "abcd".toList ["ab".toList] [[]]).getD 0 ([], []) =
      (vadd (vscale (7/10) (embed_document c5Provider (["ab".toList].getD 0 [])))
          (vscale (3/10) (embed_document c5Provider "abcd".toList)),
       ([([] : Metadata)].getD 0 [])) :=
  c5_fallback_blend c5Provider "abcd".toList ["ab".toList] [[]] 0 (by decide)
    (fun t => rfl)

/-! ## Vector Index — `VectorStore.add_document_chunks`

```python
ids = []
for i, (chunk, embedding, metadata) in enumerate(zip(chunks, embeddings, metadata_list)):
    chunk_id = str(uuid.uuid4())
    ids.append(chunk_id)
    chroma_metadata = { 'document_id': str(metadata.get('document_id', '')), ... }
    self.collection.add(ids=[chunk_id], embeddings=[...], documents=[chunk],
                        metadatas=[chroma_metadata])
return ids
```

`uuid.uuid4()` draws a fresh identifier on every single call; it is
modelled by an explicit supply `idSupply` read at successive indices
`offset, offset + 1, …` (freshness of uuid4 = the supply values are
pairwise distinct, which concrete theorems instantiate).  `collection.add`
with a fresh id appends one entry to the ChromaDB collection, modelled as
a list of entries. -/

/-- Stringified metadata record the store attaches to each chunk
(ChromaDB requires string values). -/
structure ChromaMeta where
  document_id : String
  submission_id : String
  chunk_index : String
  page_number : String
  section_title : String
  clause_number : String
  filename : String
deriving DecidableEq

/-- One stored ChromaDB entry: id, embedding vector, chunk text and
metadata. -/
structure StoreEntry where
  id : String
  embedding : Vec
  document : List Char
  metadata : ChromaMeta
deriving DecidableEq

/-- The `chroma_metadata` dict built for position `i` from the incoming
metadata dict. -/
def chromaMetadata (metadata : Metadata) (i : Nat) : ChromaMeta :=
  { document_id := dictGet metadata "document_id" ""
    submission_id := dictGet metadata "submission_id" ""
    chunk_index := dictGet metadata "chunk_index" (toString i)
    page_number := dictGet metadata "page_number" ""
    section_title := dictGet metadata "section_title" ""
    clause_number := dictGet metadata "clause_number" ""
    filename := dictGet metadata "filename" "" }

/-- `VectorStore.add_document_chunks`: zip chunks, embeddings and metadata,
draw a fresh uuid per chunk, and append one entry per chunk to the
collection.  Returns the generated ids and the new collection state. -/
def add_document_chunks (store : List StoreEntry) (idSupply : Nat → String)
    (offset : Nat) (chunks : List (List Char)) (embeddings : List Vec)
    (metadata_list : List Metadata) : List String × List StoreEntry :=
  let items := chunks.zip (embeddings.zip metadata_list)
  let entries := items.enum.map (fun ie =>
    { id := idSupply (offset + ie.1)
      embedding := ie.2.2.1
      document := ie.2.1
      metadata := chromaMetadata ie.2.2.2 ie.1 : StoreEntry })
  (entries.map (fun e => e.id), store ++ entries)

/-- C2 (code bug). Ingesting the same one-chunk document twice — same
chunk text, embeddings `[1]` then `[2]`, same metadata — leaves TWO
entries in the collection, under two distinct freshly generated ids, both
carrying the same chunk text: `add_document_chunks` never overwrites,
because every call draws a fresh `uuid4` id, so the spec's idempotence
requirement (one stored vector per chunk id, latest wins) is unsatisfied
by the write path.  (`toString` plays the uuid supply; distinctness of the
drawn ids mirrors uuid4 freshness.) -/
theorem c2_reingest_duplicates :
    (add_document_chunks
      (add_document_chunks [] toString 0 ["x".toList] [[1]] [[]]).2
      toString 1 ["x".toList] [[2]] [[]]).2.length = 2 ∧
    (add_document_chunks
      (add_document_chunks [] toString 0 ["x".toList] [[1]] [[]]).2
      toString 1 ["x".toList] [[2]] [[]]).2.map (fun e => e.document) =
      ["x".toList, "x".toList] ∧
    (add_document_chunks
      (add_document_chunks [] toString 0 ["x".toList] [[1]] [[]]).2
      toString 1 ["x".toList] [[2]] [[]]).2.map (fun e => e.id) = ["0", "1"] ∧
    ("0" : String) ≠ "1" ∧
    (add_document_chunks
      (add_document_chunks [] toString 0 ["x".toList] [[1]] [[]]).2
      toString 1 ["x".toList] [[2]] [[]]).2.map (fun e => e.embedding) =
      [[1], [2]] := by
  refine ⟨rfl, rfl, by decide, by decide, ?_⟩
  simp [add_document_chunks]

/-- General shape behind C2: `add_document_chunks` only ever appends — the
previous collection state is a prefix of the new one, so no existing entry
(in particular none with a clashing chunk id) is ever overwritten or
removed. -/
theorem add_document_chunks_append (store : List StoreEntry)
    (idSupply : Nat → String) (offset : Nat) (chunks : List (List Char))
    (embeddings : List Vec) (metadata_list : List Metadata) :
    ∃ added, (add_document_chunks store idSupply offset chunks embeddings
      metadata_list).2 = store ++ added :=
  ⟨_, rfl⟩

/-! ## Reranker — `RetrievalService.rerank` / `_fallback_rerank`

```python
def rerank(self, query, chunks, top_k=3):
    if not chunks:
        return []
    if self.cohere_client:
        try:
            ...cohere call, map results back...
        except Exception:
            return self._fallback_rerank(chunks, top_k)
    else:
        return self._fallback_rerank(chunks, top_k)

def _fallback_rerank(self, chunks, top_k):
    sorted_chunks = sorted(chunks,
        key=lambda x: x.get('distance', 1.0) if x.get('distance') is not None else 1.0)
    return sorted_chunks[:top_k]
```

The reranking provider is modelled as `Option (List (Nat × ℚ))`: `none`
covers both "no cohere client configured" and "the cohere call raised",
the two conditions under which the code runs `_fallback_rerank`; `some`
carries the provider's `(index, relevance_score)` results.  Python
`sorted` is an ascending stable sort, i.e. `mergeSort`. -/

/-- A retrieved candidate as the search path produces it (`distance` may be
missing/None, `relevance_score` is only set by the provider rerank path). -/
structure RChunk where
  id : String
  document : List Char
  metadata : Metadata
  distance : Option ℚ
  relevance_score : Option ℚ
deriving DecidableEq

/-- Sort key of `_fallback_rerank`: the candidate distance, with missing or
`None` distances treated as `1.0`. -/
def distKey (c : RChunk) : ℚ := c.distance.getD 1

/-- `RetrievalService._fallback_rerank(chunks, top_k)`. -/
def fallback_rerank (chunks : List RChunk) (top_k : Nat) : List RChunk :=
  (chunks.mergeSort (fun a b => decide (distKey a ≤ distKey b))).take top_k

/-- `RetrievalService.rerank(query, chunks, top_k)` with the provider as an
oracle.  On the provider path each result is mapped back to its original
candidate with the relevance score attached (a provider index outside the
candidate list would raise in Python; no claim exercises that path, and it
is modelled by skipping the entry). -/
def rerank (providerResult : Option (List (Nat × ℚ))) (query : String)
    (chunks : List RChunk) (top_k : Nat) : List RChunk :=
  if chunks.isEmpty then []
  else
    match providerResult with
    | some results =>
      results.filterMap (fun r => (chunks.get? r.1).map
        (fun c => { c with relevance_score := some r.2 }))
    | none => fallback_rerank chunks top_k

/-- Concrete candidate for the C7 counterexample. -/
def c7Chunk : RChunk :=
  { id := "c1", document := "d".toList, metadata := [], distance := some 0,
    relevance_score := none }

/-- Counterexample to C7: with a single candidate and `top_k = 3`, a failed
reranking provider makes `rerank` return 1 candidate, not "exactly
`top_k`" — the fallback takes `min(top_k, len(candidates))`. -/
theorem c7_counterexample :
    (rerank none "q" [c7Chunk] 3).length = 1 ∧ 1 ≠ 3 := by
  constructor
  · simp [rerank, fallback_rerank, List.mergeSort_singleton]
  · decide

/-- C7 (amended). Whenever the reranking provider is unavailable or errors,
`rerank(query, candidates, top_k)` returns the first
`min(top_k, len(candidates))` candidates of the stable ascending sort by
vector distance (missing distances counted as 1.0): exactly `top_k`
candidates when at least `top_k` are supplied, all of them otherwise,
always ordered by ascending vector distance. -/
theorem c7_fallback_sorted (query : String) (chunks : List RChunk) (top_k : Nat) :
    rerank none query chunks top_k =
      (chunks.mergeSort (fun a b => decide (distKey a ≤ distKey b))).take top_k ∧
    (rerank none query chunks top_k).length = min top_k chunks.length ∧
    List.Pairwise (fun a b => distKey a ≤ distKey b)
      (rerank none query chunks top_k) := by
  have hmain : rerank none query chunks top_k =
      (chunks.mergeSort (fun a b => decide (distKey a ≤ distKey b))).take top_k := by
    unfold rerank fallback_rerank
    by_cases he : chunks.isEmpty
    · rw [if_pos he]
      cases chunks with
      | nil => simp [List.mergeSort_nil]
      | cons a l => simp at he
    · rw [if_neg he]
  have hsorted : List.Pairwise
      (fun a b => decide (distKey a ≤ distKey b) = true)
      (chunks.mergeSort (fun a b => decide (distKey a ≤ distKey b))) :=
    List.sorted_mergeSort
      (fun a b c hab hbc => by
        simp only [decide_eq_true_eq] at hab hbc ⊢
        exact le_trans hab hbc)
      (fun a b => by
        simp only [Bool.or_eq_true, decide_eq_true_eq]
        exact le_total (distKey a) (distKey b))
      chunks
  refine ⟨hmain, ?_, ?_⟩
  · rw [hmain, List.length_take, List.length_mergeSort]
  · rw [hmain]
    exact ((hsorted.sublist (List.take_sublist _ _)).imp
      (fun h => by simpa using h))

/-- Witness for C7 (amended) on a concrete two-candidate list with
`top_k = 1`. -/
theorem c7_fallback_sorted_witness :
    rerank none "q" [c7Chunk] 1 =
      ([c7Chunk].mergeSort (fun a b => decide (distKey a ≤ distKey b))).take 1 ∧
    (rerank none "q" [c7Chunk] 1).length = min 1 [c7Chunk].length ∧
    List.Pairwise (fun a b => distKey a ≤ distKey b) (rerank none "q" [c7Chunk] 1) :=
  c7_fallback_sorted "q" [c7Chunk] 1

/-! ## Answer Generator — `LLMService.generate_with_citations`

```python
context = "\n\n".join([f"[Document {chunk['metadata'].get('document_id', '?')}, "
                       f"Page {chunk['metadata'].get('page_number', '?')}]\n"
                       f"{chunk['document']}" for chunk in retrieved_chunks])
...prompt = f-string...
response = await self.generate(prompt, max_tokens=2000)
citations = re.findall(r'\[([^\]]+)\]', response)
return {'response': response, 'citations': citations,
        'chunks_used': [chunk['id'] for chunk in retrieved_chunks]}
```

The completion provider (`LLMService.generate`) is an oracle
`String → Nat → ℚ → String` of the prompt, `max_tokens` and `temperature`
— it always returns a string (the provider chain in `_generate_cloud`
catches every exception and returns an error-marker text). -/

/-- Scanner for the regex `\x5b([^\x5d]+)\x5d`: outside a bracket
(`acc = none`) an opening bracket starts collecting; inside a bracket
(`acc = some` of the reversed collected content) a closing bracket emits
the collected snippet when non-empty (an empty pair matches nothing, as
`[^\x5d]+` needs at least one character), and any other character —
including a nested opening bracket — is collected.  An unclosed trailing
bracket emits nothing, exactly as the regex finds no further match. -/
def scanBrackets : List Char → Option (List Char) → List (List Char)
  | [], _ => []
  | c :: rest, none =>
    if c = '[' then scanBrackets rest (some [])
    else scanBrackets rest none
  | c :: rest, some acc =>
    if c = ']' then
      if acc.isEmpty then scanBrackets rest none
      else acc.reverse :: scanBrackets rest none
    else scanBrackets rest (some (c :: acc))

/-- `re.findall(regex, response)` for the citation-extraction regex: all
non-empty bracket-delimited snippets of the text, left to right. -/
def findBrackets (l : List Char) : List (List Char) :=
  scanBrackets l none

/-- A text containing no opening bracket yields no citation match. -/
theorem findBrackets_nil_of_no_bracket :
    ∀ l : List Char, '[' ∉ l → findBrackets l = [] := by
  have : ∀ l : List Char, '[' ∉ l → scanBrackets l none = [] := by
    intro l
    induction l with
    | nil => intro _; rfl
    | cons c rest ih =>
      intro h
      simp only [List.mem_cons, not_or] at h
      unfold scanBrackets
      rw [if_neg (fun hc => h.1 hc.symm)]
      exact ih h.2
  exact fun l h => this l h

/-- The per-candidate context header
`[Document <id>, Page <page>]\n<chunk text>`. -/
def chunkRefHeader (c : RChunk) : String :=
  "[Document " ++ dictGet c.metadata "document_id" "?" ++ ", Page " ++
    dictGet c.metadata "page_number" "?" ++ "]\n" ++ String.mk c.document

/-- The citation instruction block appended when `require_citations`. -/
def citationInstructionText : String :=
  "\nIMPORTANT: You MUST include citations in your response. For each fact or claim you make,\ncite the source using this format: [Document ID, Page Number, Section Title (if applicable)].\n\nExample: \"According to the notification letter [Doc-123, Page 2, Section: Decision], the client...\"\n"

/-- The drafting prompt assembled from context, query and the citation
instruction. -/
def draftPrompt (query context citation_instruction : String) : String :=
  "You are a legal assistant helping with French administrative law cases.\n\nContext from documents:\n"
    ++ context ++ "\n\nQuery: " ++ query ++ "\n\n" ++ citation_instruction ++
    "\n\nProvide a comprehensive answer based on the context. Include specific citations for all facts and claims."

/-- Result dictionary of `generate_with_citations`. -/
structure GenResult where
  response : String
  citations : List String
  chunks_used : List String
deriving DecidableEq

/-- `LLMService.generate_with_citations(query, retrieved_chunks,
require_citations)`. -/
def generate_with_citations (generateO : String → Nat → ℚ → String)
    (query : String) (retrieved_chunks : List RChunk)
    (require_citations : Bool) : GenResult :=
  let context := String.intercalate "\n\n" (retrieved_chunks.map chunkRefHeader)
  let citation_instruction :=
    if require_citations then citationInstructionText else ""
  let prompt := draftPrompt query context citation_instruction
  let response := generateO prompt 2000 (7/10)
  { response := response
    citations := (findBrackets response.toList).map (fun cs => String.mk cs)
    chunks_used := retrieved_chunks.map (fun c => c.id) }

/-- Concrete candidate for the C8 counterexample. -/
def c8Chunk : RChunk :=
  { id := "k1", document := "text".toList,
    metadata := [("document_id", "7"), ("page_number", "1")],
    distance := some 0, relevance_score := none }

/-- Counterexample to C8: over the non-empty candidate list `[c8Chunk]`,
an answer with no parsable bracket citation makes
`generate_with_citations` return an EMPTY citation list — no synthetic
citation per top candidate is substituted by the generator (that
substitution lives in the HTTP route layer, outside the generator). -/
theorem c8_counterexample :
    (generate_with_citations (fun _ _ _ => "No sources were available.") "q"
      [c8Chunk] true).citations = [] ∧
    ([c8Chunk] : List RChunk) ≠ [] := by
  constructor
  · rfl
  · simp

/-- C8 (amended). The generator's returned citation list is exactly the
list of bracket-delimited snippets parsed from the answer text; in
particular, when the answer contains no opening bracket at all the
citation list is empty even over a non-empty candidate list — the
generator substitutes no synthetic citations (the never-citation-free
substitution from top candidates is implemented downstream, in the HTTP
query route, not here). -/
theorem c8_citations_are_bracket_matches (generateO : String → Nat → ℚ → String)
    (query : String) (retrieved_chunks : List RChunk) (require_citations : Bool) :
    (generate_with_citations generateO query retrieved_chunks
        require_citations).citations =
      (findBrackets (generate_with_citations generateO query retrieved_chunks
        require_citations).response.toList).map (fun cs => String.mk cs) ∧
    ('[' ∉ (generate_with_citations generateO query retrieved_chunks
        require_citations).response.toList →
      (generate_with_citations generateO query retrieved_chunks
        require_citations).citations = []) := by
  refine ⟨rfl, fun h => ?_⟩
  have h1 : (generate_with_citations generateO query retrieved_chunks
        require_citations).citations =
      (findBrackets (generate_with_citations generateO query retrieved_chunks
        require_citations).response.toList).map (fun cs => String.mk cs) := rfl
  rw [h1, findBrackets_nil_of_no_bracket _ h]
  rfl

/-- Witness for C8 (amended): a bracket-free answer over an empty candidate
list yields the empty citation list. -/
theorem c8_citations_are_bracket_matches_witness :
    (generate_with_citations (fun _ _ _ => "plain answer") "q" [] true).citations
      = [] :=
  (c8_citations_are_bracket_matches (fun _ _ _ => "plain answer") "q" [] true).2
    (by decide)

/-! ## Critique/Revision Controller — `RAGPipeline`

The LangGraph state machine
`retrieval → drafting → critique → (revise → retrieval | accept → END)`
is embedded as one loop body (`retrieval; drafting; critique`) followed by
the conditional edge `_should_revise`, with explicit fuel counting full
Retrieve/Draft/Critique cycles; `none` = the graph would still be looping
after that many cycles.  `retrieval_service.retrieve` and
`llm_service.generate` are oracles carried in `Oracles`; `generate` takes
the prompt, `max_tokens` and `temperature` exactly as the Python passes
them and always returns a string (its provider chain never raises). -/

/-- The `RAGState` TypedDict. -/
structure RAGState where
  query : String
  filter_metadata : Option Metadata
  retrieved_chunks : List RChunk
  draft_answer : String
  critique : String
  citations : List String
  revision_count : Nat
  final_answer : String

/-- External service oracles of the pipeline: `retrieveO` is
`retrieval_service.retrieve(query, n_results, top_k, filter_metadata)`,
`generateO` is `llm_service.generate(prompt, max_tokens, temperature)`. -/
structure Oracles where
  retrieveO : String → Nat → Nat → Option Metadata → List RChunk
  generateO : String → Nat → ℚ → String

/-- `RAGPipeline._retrieval_node`. -/
def retrieval_node (o : Oracles) (s : RAGState) : RAGState :=
  { s with retrieved_chunks := o.retrieveO s.query 10 3 s.filter_metadata }

/-- `RAGPipeline._drafting_node`: run `generate_with_citations` over the
retrieved chunks and store the draft answer and its citations. -/
def drafting_node (o : Oracles) (s : RAGState) : RAGState :=
  { s with
    draft_answer :=
      (generate_with_citations o.generateO s.query s.retrieved_chunks true).response
    citations :=
      (generate_with_citations o.generateO s.query s.retrieved_chunks true).citations }

/-- The critique prompt of `RAGPipeline._critique_node`. -/
def critiquePrompt (query draft_answer : String) (ncitations : Nat) : String :=
  "You are a legal expert reviewing an AI-generated answer.\n\nOriginal Query: "
    ++ query ++ "\n\nDraft Answer:\n" ++ draft_answer ++ "\n\nCitations Found: "
    ++ toString ncitations ++
    "\n\nPlease critique this answer. Check:\n1. Does the answer cite sources properly? (Look for [Document ID, Page Number] format)\n2. Are there any conflicts or contradictions between different sources?\n3. Is the answer accurate and complete?\n4. Are there any hallucinations (facts not in the sources)?\n\nProvide your critique. If the answer is good, say \"ACCEPT\". If there are issues, say \"REVISE\" and explain why."

/-- `RAGPipeline._critique_node`. -/
def critique_node (o : Oracles) (s : RAGState) : RAGState :=
  { s with critique := o.generateO (critiquePrompt s.query s.draft_answer s.citations.length) 500 (3/10) }

/-- Outcome of the conditional edge. -/
inductive Verdict where
  | revise
  | accept
deriving DecidableEq

/-- `RAGPipeline._should_revise`: accept outright once `revision_count ≥ 3`
(`# Maximum 3 revisions to prevent infinite loops`), otherwise revise
exactly when the upper-cased critique contains `REVISE`, `ISSUE` or
`PROBLEM`. -/
def should_revise (s : RAGState) : Verdict :=
  if s.revision_count ≥ 3 then Verdict.accept
  else if strHas "REVISE".toList (pyUpper s.critique).toList
      || strHas "ISSUE".toList (pyUpper s.critique).toList
      || strHas "PROBLEM".toList (pyUpper s.critique).toList then Verdict.revise
  else Verdict.accept

/-- The query-refinement prompt of `RAGPipeline._revision_node`. -/
def revisionPrompt (query critique : String) : String :=
  "Based on this critique, refine the search query to get better results:\n\nOriginal Query: "
    ++ query ++ "\nCritique: " ++ critique ++
    "\n\nProvide a refined, more specific query that addresses the issues mentioned."

/-- `RAGPipeline._revision_node`: store the stripped refined query, bump
`revision_count`, clear `retrieved_chunks`, `draft_answer` and `critique`,
keep `filter_metadata` (and every other field). -/
def revision_node (o : Oracles) (s : RAGState) : RAGState :=
  { s with
    query := pyStrip (o.generateO (revisionPrompt s.query s.critique) 200 (1/2))
    filter_metadata := s.filter_metadata
    revision_count := s.revision_count + 1
    retrieved_chunks := []
    draft_answer := ""
    critique := "" }

/-- Fuel-indexed execution of the compiled LangGraph: one unit of fuel per
full Retrieve/Draft/Critique cycle; `none` = still looping after `fuel`
cycles. -/
def runLoop (o : Oracles) : Nat → RAGState → Option RAGState
  | 0, _ => none
  | fuel + 1, s =>
    match should_revise (critique_node o (drafting_node o (retrieval_node o s))) with
    | Verdict.revise =>
      runLoop o fuel
        (revision_node o (critique_node o (drafting_node o (retrieval_node o s))))
    | Verdict.accept => some (critique_node o (drafting_node o (retrieval_node o s)))

/-- The initial state built by `RAGPipeline.run`. -/
def initialState (query : String) (filter_metadata : Option Metadata) : RAGState :=
  { query := query
    filter_metadata := filter_metadata
    retrieved_chunks := []
    draft_answer := ""
    critique := ""
    citations := []
    revision_count := 0
    final_answer := "" }

/-- The dictionary `RAGPipeline.run` returns. -/
structure RunResult where
  answer : String
  citations : List String
  revision_count : Nat
  retrieved_chunks : List RChunk
deriving DecidableEq

/-- `RAGPipeline.run(query, filter_metadata)`: execute the graph and
extract the result, substituting the failure-marker answer for an empty
draft.  Fuel 4 = `MAX_REVISIONS + 1` cycles is exact: the theorems below
show the graph always stops within 4 cycles (any fuel ≥ 4 gives the same
result), so this definition is the graph's total semantics. -/
def run (o : Oracles) (query : String) (filter_metadata : Option Metadata) :
    Option RunResult :=
  match runLoop o 4 (initialState query filter_metadata) with
  | none => none
  | some fs =>
    some { answer := (if fs.draft_answer = ""
             then "Unable to generate answer after revisions."
             else fs.draft_answer)
           citations := fs.citations
           revision_count := fs.revision_count
           retrieved_chunks := fs.retrieved_chunks }

/-- Retrieval, drafting and critique leave `revision_count` unchanged. -/
theorem cycle_revision_count (o : Oracles) (s : RAGState) :
    (critique_node o (drafting_node o (retrieval_node o s))).revision_count =
      s.revision_count := rfl

/-- The revise edge is only taken below the revision bound. -/
theorem should_revise_lt (s : RAGState) (h : should_revise s = Verdict.revise) :
    s.revision_count < 3 := by
  unfold should_revise at h
  by_cases h3 : s.revision_count ≥ 3
  · rw [if_pos h3] at h
    exact absurd h (by decide)
  · omega

/-- More fuel never changes a result the graph already reached. -/
theorem runLoop_mono (o : Oracles) :
    ∀ (fuel fuel' : Nat) (s : RAGState) (r : RAGState),
      runLoop o fuel s = some r → fuel ≤ fuel' → runLoop o fuel' s = some r := by
  intro fuel
  induction fuel with
  | zero => intro fuel' s r h _; exact absurd h (by simp [runLoop])
  | succ n ih =>
    intro fuel' s r h hle
    obtain ⟨m, rfl⟩ : ∃ m, fuel' = m + 1 := ⟨fuel' - 1, by omega⟩
    unfold runLoop at h ⊢
    cases hv : should_revise (critique_node o (drafting_node o (retrieval_node o s))) with
    | revise =>
      rw [hv] at h
      exact ih m _ r h (by omega)
    | accept =>
      rw [hv] at h
      exact h

/-- Core bound: from any state below the revision bound, the graph reaches
a terminal state within `4 - revision_count` further cycles, and the final
`revision_count` never exceeds 3. -/
theorem runLoop_some (o : Oracles) :
    ∀ (fuel : Nat) (s : RAGState), s.revision_count ≤ 3 →
      4 - s.revision_count ≤ fuel →
      ∃ r, runLoop o fuel s = some r ∧ r.revision_count ≤ 3 := by
  intro fuel
  induction fuel with
  | zero => intro s h3 hf; omega
  | succ n ih =>
    intro s h3 hf
    unfold runLoop
    cases hv : should_revise (critique_node o (drafting_node o (retrieval_node o s))) with
    | revise =>
      have hlt : s.revision_count < 3 := by
        have := should_revise_lt _ hv
        rwa [cycle_revision_count] at this
      have hrc : (revision_node o (critique_node o (drafting_node o
          (retrieval_node o s)))).revision_count = s.revision_count + 1 := rfl
      obtain ⟨r, hr, hr3⟩ := ih (revision_node o (critique_node o (drafting_node o
          (retrieval_node o s)))) (by omega) (by omega)
      exact ⟨r, hr, hr3⟩
    | accept =>
      refine ⟨_, rfl, ?_⟩
      rw [cycle_revision_count]
      exact h3

/-- C1. For every retrieval and completion oracle — in particular for a
critique provider answering `REVISE` on every iteration — and every query
and filter, the pipeline terminates within `MAX_REVISIONS + 1 = 4`
Retrieve/Draft/Critique cycles: 4 cycles of fuel always produce a result,
any larger fuel produces the same result, and the returned
`revision_count` never exceeds 3 (the revise edge is unreachable once
`revision_count ≥ 3`). -/
theorem c1_run_bounded (o : Oracles) (query : String) (fm : Option Metadata) :
    ∃ res : RunResult, run o query fm = some res ∧ res.revision_count ≤ 3 ∧
      ∀ fuel : Nat, 4 ≤ fuel →
        runLoop o fuel (initialState query fm) =
          runLoop o 4 (initialState query fm) := by
  obtain ⟨r, hr, hr3⟩ := runLoop_some o 4 (initialState query fm)
    (by simp [initialState]) (by simp [initialState])
  refine ⟨{ answer := (if r.draft_answer = ""
              then "Unable to generate answer after revisions."
              else r.draft_answer)
            citations := r.citations
            revision_count := r.revision_count
            retrieved_chunks := r.retrieved_chunks }, ?_, ?_, ?_⟩
  · unfold run
    rw [hr]
  · exact hr3
  · intro fuel hf
    rw [hr]
    exact runLoop_mono o 4 fuel _ r hr hf

/-- Concrete worst case behind C1: with a critique provider that demands
revision on every single call, the pipeline still terminates, after
exactly 3 revisions (4 cycles), with the failure-marker-free draft of the
last cycle. -/
theorem run_always_revise_stops :
    (run { retrieveO := fun _ _ _ _ => [],
           generateO := fun _ _ _ => "REVISE" } "q" none).map
      (fun r => r.revision_count) = some 3 := by
  decide

/-- C6. The revise transition fires exactly when the upper-cased critique
contains one of the keywords `REVISE`, `ISSUE`, `PROBLEM` and the revision
bound is not yet reached; in every other case — no keyword, or
`revision_count ≥ 3` — the verdict is accept. -/
theorem c6_verdict_iff (s : RAGState) :
    should_revise s = Verdict.revise ↔
      ((strHas "REVISE".toList (pyUpper s.critique).toList
        || strHas "ISSUE".toList (pyUpper s.critique).toList
        || strHas "PROBLEM".toList (pyUpper s.critique).toList) = true
       ∧ s.revision_count < 3) := by
  unfold should_revise
  split_ifs with h1 h2
  · constructor
    · intro h
      exact absurd h (by decide)
    · intro h
      omega
  · constructor
    · intro _
      exact ⟨h2, by omega⟩
    · intro _
      rfl
  · constructor
    · intro h
      exact absurd h (by decide)
    · intro h
      exact absurd h.1 h2

/-- C9. The revision step increments `revision_count` by exactly 1, clears
the retrieved candidates, the draft answer and the critique verdict,
replaces the query with the (stripped) rewritten query returned by the
completion provider, and leaves the scope filter `filter_metadata` — and
every other state field (`citations`, `final_answer`) — unchanged. -/
theorem c9_revision_frame (o : Oracles) (s : RAGState) :
    (revision_node o s).revision_count = s.revision_count + 1 ∧
    (revision_node o s).retrieved_chunks = [] ∧
    (revision_node o s).draft_answer = "" ∧
    (revision_node o s).critique = "" ∧
    (revision_node o s).query =
      pyStrip (o.generateO (revisionPrompt s.query s.critique) 200 (1/2)) ∧
    (revision_node o s).filter_metadata = s.filter_metadata ∧
    (revision_node o s).citations = s.citations ∧
    (revision_node o s).final_answer = s.final_answer :=
  ⟨rfl, rfl, rfl, rfl, rfl, rfl, rfl, rfl⟩
